import Mathlib

/-!
Shallow embedding of the server-process supervisor of tangshuang/aicodeswitch.

The repository contains two variants of the Tauri shell, both managing a
single Node.js backend child process behind a mutex-protected slot:

* `src/src-tauri/src/main.rs` — the command-based variant (namespace `SrcTauri`
  below): `start_server`, `stop_server`, `get_server_status`, `wait_for_server`.
* `src/tauri/src/main.rs` — the navigation-based variant (namespace `TauriV`
  below): `read_port_from_config`, `start_server`, `stop_server`,
  `is_server_running`, `wait_for_server`, and the async setup flow that first
  probes for an already-running server and only then spawns.

OS effects (spawning, the kill/wait pair, network probes) are abstracted as
explicit inputs: probe outcomes are an oracle `Nat → ProbeOutcome` indexed by
attempt number, spawning is an `Except`/`SpawnPhase` input describing what the
OS would do, and kill/wait results are inputs whose values the code discards,
exactly as the Rust uses `let _ = child.kill(); let _ = child.wait();`.
Each operation returns, alongside its Rust return value, the resulting
`ServerProcess` state and the list of process effects it performed, so that
"no second process is spawned" and "the child is not killed" are statable.
-/

namespace AiCodeSwitch

/-- An opaque OS child process handle (`std::process::Child`), identified by
an abstract id so that distinct spawns are distinguishable. -/
structure Child where
  id : Nat
deriving DecidableEq

/-- Process-level side effects performed on the OS: spawning a child,
sending it the kill signal, and reaping (waiting for) it. -/
inductive Eff
  | spawn (c : Child)
  | kill (c : Child)
  | reap (c : Child)
deriving DecidableEq

/-- `struct ServerProcess { process: Option<Child> }` — the single shared
mutable slot protected by the mutex in both variants. -/
structure ServerProcess where
  process : Option Child
deriving DecidableEq

/-- Outcome of one HTTP GET against the health endpoint, as the Rust code
distinguishes them: a completed response with some status code, a request
error (connection refused etc.), or a timeout (only the `TauriV` duplicate
check races against a 1-second timer, but the constructor is shared). -/
inductive ProbeOutcome
  | response (status : Nat)
  | requestError
  | timeout
deriving DecidableEq

/-- `reqwest::StatusCode::is_success`: the 2xx class, 200..=299. -/
def status_is_success (s : Nat) : Bool :=
  200 ≤ s && s ≤ 299

/-- The condition `Ok(response) if response.status().is_success()` that both
polling loops test on each attempt: a completed response with a 2xx status. -/
def probe_healthy : ProbeOutcome → Bool
  | ProbeOutcome.response s => status_is_success s
  | ProbeOutcome.requestError => false
  | ProbeOutcome.timeout => false

/-- A fixed concrete child handle, used for closed instantiations. -/
def child0 : Child := ⟨0⟩

namespace SrcTauri

/-- The polling loop of `wait_for_server` in `src/src-tauri/src/main.rs`
(lines 106–122): `for attempt in 0..30`, return `Ok(())` at the first healthy
probe, sleep between attempts, and after the loop return the timeout error.
`attempt` is the index fed to the probe oracle and `fuel` the remaining
iterations; the loop runs attempts `0..29`. -/
def wait_from (probes : Nat → ProbeOutcome) : Nat → Nat → Except String Unit
  | _, 0 => Except.error ("Server failed to start within timeout")
  | attempt, fuel + 1 =>
    if probe_healthy (probes attempt) then Except.ok ()
    else wait_from probes (attempt + 1) fuel

/-- `wait_for_server` of `src/src-tauri/src/main.rs`: 30 attempts starting at
attempt index 0. The port only shapes the probed URL, which the probe oracle
abstracts. -/
def wait_for_server (probes : Nat → ProbeOutcome) : Except String Unit :=
  wait_from probes 0 30

/-- `start_server` of `src/src-tauri/src/main.rs` (lines 18–55). Under the
lock: if a process is already stored, return `Ok("Server already running")`
at once; otherwise spawn (`spawnResult` is what the OS answers; on `Err e`
the command fails with the formatted message and no state change), store the
child, then run `wait_for_server`, whose error propagates via `?` while the
stored handle is kept. -/
def start_server (spawnResult : Except String Child) (probes : Nat → ProbeOutcome)
    (s : ServerProcess) (port : Nat) :
    Except String String × ServerProcess × List Eff :=
  if s.process.isSome then (Except.ok ("Server already running"), s, [])
  else
    match spawnResult with
    | Except.error e => (Except.error ("Failed to start server: " ++ e), s, [])
    | Except.ok child =>
      match wait_for_server probes with
      | Except.error e => (Except.error e, ⟨some child⟩, [Eff.spawn child])
      | Except.ok _ =>
        (Except.ok ("Server started on port " ++ toString port),
          ⟨some child⟩, [Eff.spawn child])

/-- `stop_server` of `src/src-tauri/src/main.rs` (lines 57–68): `take()` the
slot; if it held a child, kill and wait it with both results discarded
(`killResult` and `waitResult` are the OS answers the code ignores) and
return `Ok("Server stopped")`; otherwise return the error. -/
def stop_server (_killResult _waitResult : Except String Unit) (s : ServerProcess) :
    Except String String × ServerProcess × List Eff :=
  match s.process with
  | some child =>
    (Except.ok ("Server stopped"), ⟨none⟩, [Eff.kill child, Eff.reap child])
  | none => (Except.error ("Server is not running"), s, [])

/-- `get_server_status` of `src/src-tauri/src/main.rs` (lines 70–74). -/
def get_server_status (s : ServerProcess) : Except String Bool :=
  Except.ok s.process.isSome

end SrcTauri

namespace TauriV

/-- `const DEFAULT_SERVER_PORT: u16 = 4567` in `src/tauri/src/main.rs`. -/
def DEFAULT_SERVER_PORT : Nat := 4567

/-- Rust `str::trim` as applied to a config line, on the character list of
the line: leading and trailing whitespace removed (Lean's
`Char.isWhitespace` covers the space, tab, newline and carriage-return
characters a config line can carry). -/
def trimChars (cs : List Char) : List Char :=
  ((cs.dropWhile Char.isWhitespace).reverse.dropWhile Char.isWhitespace).reverse

/-- Rust `str::lines` on the character list of the file content: split at
each newline character. (Rust also removes a carriage return at the end of
each line; here the per-line `trim` of the source removes it, so the two
pipelines agree line by line.) -/
def splitLines : List Char → List (List Char)
  | [] => [[]]
  | ch :: rest =>
    if ch = '\n' then [] :: splitLines rest
    else
      match splitLines rest with
      | [] => [[ch]]
      | l :: ls => (ch :: l) :: ls

/-- Rust `u16::from_str` as used by `port_str.trim().parse::<u16>()`: an
optional leading plus sign, then one or more ASCII digits, and the value must
fit in a `u16` (at most 65535); anything else is a parse error (`none`). -/
def parse_u16 (cs : List Char) : Option Nat :=
  let digits :=
    match cs with
    | '+' :: rest => rest
    | other => other
  if digits.isEmpty then none
  else if digits.all Char.isDigit then
    let v := digits.foldl (fun acc c => acc * 10 + (c.toNat - 48)) 0
    if v ≤ 65535 then some v else none
  else none

/-- One iteration of the line loop of `read_port_from_config` (lines 48–58):
trim the line, require the `PORT=` prefix, strip it (5 characters), trim the
remainder and parse it as a `u16`; any failure means the line yields nothing
and the loop continues. -/
def port_of_line (l : List Char) : Option Nat :=
  let t := trimChars l
  if List.isPrefixOf (("PORT=").data) t then parse_u16 (trimChars (t.drop 5))
  else none

/-- The `for line in content.lines()` loop of `read_port_from_config`: the
first line that yields a port is returned, otherwise the default. -/
def read_port_lines : List (List Char) → Nat
  | [] => DEFAULT_SERVER_PORT
  | l :: rest =>
    match port_of_line l with
    | some p => p
    | none => read_port_lines rest

/-- `read_port_from_config` of `src/tauri/src/main.rs` (lines 28–61).
`homeDir` is the result of the `HOME`/`USERPROFILE` lookup and `content` the
result of reading `~/.aicodeswitch/aicodeswitch.conf` (`none` = missing or
unreadable); either failure falls back to `DEFAULT_SERVER_PORT`, otherwise
the lines of the file content are scanned. -/
def read_port_from_config (homeDir : Option String) (content : Option String) : Nat :=
  match homeDir with
  | none => DEFAULT_SERVER_PORT
  | some _ =>
    match content with
    | none => DEFAULT_SERVER_PORT
    | some c => read_port_lines (splitLines c.data)

/-- `is_server_running` of `src/tauri/src/main.rs` (lines 214–243): one probe
with a 1-second timeout; `Ok(Ok(response))` with a 2xx status is `true`, a
completed response with any other status, a request error, or the timeout
all yield `false`. Every probe outcome is matched, so the caller always
receives a `Bool` and no error escapes. -/
def is_server_running (probe : ProbeOutcome) : Bool :=
  match probe with
  | ProbeOutcome.response status => status_is_success status
  | ProbeOutcome.requestError => false
  | ProbeOutcome.timeout => false

/-- `http://localhost:<port>/health`, the URL both loops format. -/
def health_url (port : Nat) : String :=
  "http://localhost:" ++ toString port ++ "/health"

/-- The error returned by `wait_for_server` after exhausting its attempts:
`format!("Server failed to start within {} seconds\nLast health check URL: {}",
max_attempts / 2, health_url)` with `max_attempts = 30`. -/
def timeout_msg (port : Nat) : String :=
  "Server failed to start within 15 seconds\nLast health check URL: " ++ health_url port

/-- The polling loop of `wait_for_server` in `src/tauri/src/main.rs`
(lines 246–283): `for attempt in 1..=max_attempts`, return `Ok(())` at the
first healthy probe, sleep between attempts, and after the loop return the
timeout error. `attempt` indexes the probe oracle (starting at 1 as in the
source), `fuel` is the remaining iterations. -/
def wait_from (probes : Nat → ProbeOutcome) (port : Nat) : Nat → Nat → Except String Unit
  | _, 0 => Except.error (timeout_msg port)
  | attempt, fuel + 1 =>
    if probe_healthy (probes attempt) then Except.ok ()
    else wait_from probes port (attempt + 1) fuel

/-- `wait_for_server` of `src/tauri/src/main.rs`: 30 attempts, indices 1..30. -/
def wait_for_server (probes : Nat → ProbeOutcome) (port : Nat) : Except String Unit :=
  wait_from probes port 1 30

/-- What the environment answers when `start_server` reaches its spawn
section: resolving the resource dir may fail, the entry file may be missing,
the OS may refuse to spawn, or a child is spawned. `e`/`m` carry the
interpolated failure details of the corresponding `format!` calls. -/
inductive SpawnPhase
  | resourceDirError (e : String)
  | entryMissing (m : String)
  | spawnError (e : String)
  | spawned (c : Child)

/-- `start_server` of `src/tauri/src/main.rs` (lines 87–154). Inside the lock
block: if a process is already stored, return `Ok(())` at once; otherwise
resolve the resource root and entry file, check existence, spawn — each
failure returns the formatted error with no state change — and store the
child. After the lock block ends, `wait_for_server` runs and its error
propagates via `?` while the stored handle is kept. -/
def start_server (env : SpawnPhase) (probes : Nat → ProbeOutcome)
    (s : ServerProcess) (port : Nat) :
    Except String Unit × ServerProcess × List Eff :=
  if s.process.isSome then (Except.ok (), s, [])
  else
    match env with
    | SpawnPhase.resourceDirError e =>
      (Except.error ("Failed to resolve resource dir: " ++ e), s, [])
    | SpawnPhase.entryMissing m =>
      (Except.error ("Server entry file not found: " ++ m), s, [])
    | SpawnPhase.spawnError e =>
      (Except.error ("Failed to start Node.js server: " ++ e), s, [])
    | SpawnPhase.spawned child =>
      match wait_for_server probes port with
      | Except.error e => (Except.error e, ⟨some child⟩, [Eff.spawn child])
      | Except.ok _ => (Except.ok (), ⟨some child⟩, [Eff.spawn child])

/-- `stop_server` of `src/tauri/src/main.rs` (lines 157–164): `take()` the
slot; if it held a child, kill and wait it with both results discarded
(`_killResult`/`_waitResult` are the OS answers the code ignores). The Rust
function's return type is `()`: the `Unit` component is the value the caller
receives, identical on every path — no error is ever surfaced. -/
def stop_server (_killResult _waitResult : Except String Unit) (s : ServerProcess) :
    Unit × ServerProcess × List Eff :=
  match s.process with
  | some child => ((), ⟨none⟩, [Eff.kill child, Eff.reap child])
  | none => ((), s, [])

/-- What the async setup task of `src/tauri/src/main.rs` (lines 330–385)
reports back by its visible actions: the Node.js-missing dialog, navigation
to an already-running external server without spawning, navigation after a
successful start, or the start-failure dialog. `navigatedExisting` is the
spec's `AlreadyRunningExternally` outcome, `startedAndNavigated` its
`Started`. -/
inductive FlowOutcome
  | nodeMissing (e : String)
  | navigatedExisting
  | startedAndNavigated
  | startFailed (e : String)
deriving DecidableEq

/-- The async setup task of `src/tauri/src/main.rs` (lines 330–385), i.e. the
supervisor-level `start` sequence: check Node.js (`nodeCheck` is what
`check_nodejs_installed` returns); then run the short-timeout duplicate check
`is_server_running` on `dupProbe` — if it answers `true`, navigate to the
existing server and return without touching the state or spawning; otherwise
call `start_server` and report its result. -/
def startup_flow (nodeCheck : Except String String) (dupProbe : ProbeOutcome)
    (env : SpawnPhase) (probes : Nat → ProbeOutcome)
    (s : ServerProcess) (port : Nat) :
    FlowOutcome × ServerProcess × List Eff :=
  match nodeCheck with
  | Except.error e => (FlowOutcome.nodeMissing e, s, [])
  | Except.ok _ =>
    if is_server_running dupProbe then (FlowOutcome.navigatedExisting, s, [])
    else
      match start_server env probes s port with
      | (Except.ok _, s2, effs) => (FlowOutcome.startedAndNavigated, s2, effs)
      | (Except.error e, s2, effs) => (FlowOutcome.startFailed e, s2, effs)

end TauriV

/-! Lock-scope abstraction for the concurrency claim. Each `start_server` is
divided into its three phases, each annotated with whether the mutex guard on
the `ServerProcess` slot is alive while the phase runs; the annotations are
read off the guard scopes in the two sources. -/

/-- The three phases of a `start_server` run: the ownership check of the
slot, the path-resolution/spawn/store section, and the readiness poll
(`wait_for_server`). -/
inductive PhaseKind
  | ownershipCheck
  | spawnPhase
  | readinessPoll
deriving DecidableEq, BEq

/-- One phase of a start run together with whether the mutex guard is held
while it executes. -/
structure StartPhase where
  kind : PhaseKind
  underLock : Bool
deriving DecidableEq

/-- Phase trace of `start_server` in `src/src-tauri/src/main.rs`: the guard
bound by `state.lock().unwrap()` on line 23 is a plain binding whose scope is
the whole function body, so it is still alive across the
`wait_for_server(port).await` call on line 52. -/
def srcTauri_start_phases : List StartPhase :=
  [⟨PhaseKind.ownershipCheck, true⟩,
   ⟨PhaseKind.spawnPhase, true⟩,
   ⟨PhaseKind.readinessPoll, true⟩]

/-- Phase trace of `start_server` in `src/tauri/src/main.rs`: the guard is
confined to the brace block of lines 93–148, and `wait_for_server(port)` on
line 151 runs after the block ends, i.e. after the guard is dropped. -/
def tauriV_start_phases : List StartPhase :=
  [⟨PhaseKind.ownershipCheck, true⟩,
   ⟨PhaseKind.spawnPhase, true⟩,
   ⟨PhaseKind.readinessPoll, false⟩]

/-- Whether the mutex guard is held during the readiness-poll phase of a
start trace — the phase during which a concurrent `stop_server` would have
to acquire the same mutex. -/
def lock_held_during_poll (ps : List StartPhase) : Bool :=
  ps.any fun p => p.kind == PhaseKind.readinessPoll && p.underLock

/-! Helper lemmas about the two polling loops. -/

/-- If no probe is ever healthy, the `src-tauri` loop runs out of fuel and
returns its timeout error. -/
theorem SrcTauri.wait_from_all_fail_src (probes : Nat → ProbeOutcome)
    (h : ∀ i, probe_healthy (probes i) = false) :
    ∀ f a, SrcTauri.wait_from probes a f
      = Except.error ("Server failed to start within timeout") := by
  intro f
  induction f with
  | zero => intro a; rfl
  | succ f ih =>
    intro a
    rw [SrcTauri.wait_from, h a]
    exact ih (a + 1)

/-- If no probe is ever healthy, the `tauri` loop runs out of fuel and
returns its timeout error. -/
theorem TauriV.wait_from_all_fail_t (probes : Nat → ProbeOutcome) (port : Nat)
    (h : ∀ i, probe_healthy (probes i) = false) :
    ∀ f a, TauriV.wait_from probes port a f = Except.error (TauriV.timeout_msg port) := by
  intro f
  induction f with
  | zero => intro a; rfl
  | succ f ih =>
    intro a
    rw [TauriV.wait_from, h a]
    exact ih (a + 1)

/-- The `src-tauri` loop succeeds exactly when some attempt within its fuel
budget sees a healthy probe. -/
theorem SrcTauri.wait_from_ok_iff_src (probes : Nat → ProbeOutcome) :
    ∀ f a, (SrcTauri.wait_from probes a f = Except.ok ()
      ↔ ∃ i, i < f ∧ probe_healthy (probes (a + i)) = true) := by
  intro f
  induction f with
  | zero =>
    intro a
    simp [SrcTauri.wait_from]
  | succ f ih =>
    intro a
    rw [SrcTauri.wait_from]
    by_cases h : probe_healthy (probes a) = true
    · rw [if_pos h]
      constructor
      · intro _
        exact ⟨0, Nat.succ_pos f, by simpa using h⟩
      · intro _; rfl
    · rw [if_neg h, ih (a + 1)]
      constructor
      · rintro ⟨i, hi, hp⟩
        refine ⟨i + 1, by omega, ?_⟩
        have hx : a + (i + 1) = a + 1 + i := by omega
        rw [hx]; exact hp
      · rintro ⟨i, hi, hp⟩
        cases i with
        | zero => simp at hp; exact absurd hp h
        | succ j =>
          refine ⟨j, by omega, ?_⟩
          have hx : a + 1 + j = a + (j + 1) := by omega
          rw [hx]; exact hp

/-- The `tauri` loop succeeds exactly when some attempt within its fuel
budget sees a healthy probe. -/
theorem TauriV.wait_from_ok_iff_t (probes : Nat → ProbeOutcome) (port : Nat) :
    ∀ f a, (TauriV.wait_from probes port a f = Except.ok ()
      ↔ ∃ i, i < f ∧ probe_healthy (probes (a + i)) = true) := by
  intro f
  induction f with
  | zero =>
    intro a
    simp [TauriV.wait_from]
  | succ f ih =>
    intro a
    rw [TauriV.wait_from]
    by_cases h : probe_healthy (probes a) = true
    · rw [if_pos h]
      constructor
      · intro _
        exact ⟨0, Nat.succ_pos f, by simpa using h⟩
      · intro _; rfl
    · rw [if_neg h, ih (a + 1)]
      constructor
      · rintro ⟨i, hi, hp⟩
        refine ⟨i + 1, by omega, ?_⟩
        have hx : a + (i + 1) = a + 1 + i := by omega
        rw [hx]; exact hp
      · rintro ⟨i, hi, hp⟩
        cases i with
        | zero => simp at hp; exact absurd hp h
        | succ j =>
          refine ⟨j, by omega, ?_⟩
          have hx : a + 1 + j = a + (j + 1) := by omega
          rw [hx]; exact hp

/-- The `src-tauri` loop has exactly two possible results: success, or its
one timeout error — it cannot diverge or produce any other value. -/
theorem SrcTauri.wait_from_ok_or_err_src (probes : Nat → ProbeOutcome) :
    ∀ f a, SrcTauri.wait_from probes a f = Except.ok ()
      ∨ SrcTauri.wait_from probes a f
          = Except.error ("Server failed to start within timeout") := by
  intro f
  induction f with
  | zero => intro a; right; rfl
  | succ f ih =>
    intro a
    rw [SrcTauri.wait_from]
    by_cases h : probe_healthy (probes a) = true
    · rw [if_pos h]; left; rfl
    · rw [if_neg h]; exact ih (a + 1)

/-- The `tauri` loop has exactly two possible results: success, or its one
timeout error — it cannot diverge or produce any other value. -/
theorem TauriV.wait_from_ok_or_err_t (probes : Nat → ProbeOutcome) (port : Nat) :
    ∀ f a, TauriV.wait_from probes port a f = Except.ok ()
      ∨ TauriV.wait_from probes port a f = Except.error (TauriV.timeout_msg port) := by
  intro f
  induction f with
  | zero => intro a; right; rfl
  | succ f ih =>
    intro a
    rw [TauriV.wait_from]
    by_cases h : probe_healthy (probes a) = true
    · rw [if_pos h]; left; rfl
    · rw [if_neg h]; exact ih (a + 1)

/-- A config-line scan in which no line yields a port falls through to the
default port. -/
theorem TauriV.read_port_lines_all_none :
    ∀ ls : List (List Char), (∀ l ∈ ls, TauriV.port_of_line l = none) →
      TauriV.read_port_lines ls = TauriV.DEFAULT_SERVER_PORT := by
  intro ls
  induction ls with
  | nil => intro _; rfl
  | cons l rest ih =>
    intro h
    have hl : TauriV.port_of_line l = none := h l (List.mem_cons_self l rest)
    have hr := ih (fun x hx => h x (List.mem_cons_of_mem l hx))
    rw [TauriV.read_port_lines, hl]
    exact hr

/-! The claims. -/

/-- C1: idempotent start / single-instance invariant. In both variants, on
any state whose slot already holds a child, `start_server` returns its
success value at once, leaves the state exactly as it was, and performs no
process effect — in particular it spawns no second process. -/
theorem C1_idempotent_start (spawnResult : Except String Child)
    (env : TauriV.SpawnPhase) (probesS probesT : Nat → ProbeOutcome)
    (c : Child) (portS portT : Nat) :
    SrcTauri.start_server spawnResult probesS ⟨some c⟩ portS
      = (Except.ok ("Server already running"), ⟨some c⟩, [])
    ∧ TauriV.start_server env probesT ⟨some c⟩ portT
      = (Except.ok (), ⟨some c⟩, []) :=
  ⟨rfl, rfl⟩

/-- C2: duplicate-detection precedence. In the `tauri` variant's startup
sequence, whenever the short-timeout duplicate probe completes with a 2xx
status before anything is spawned, the flow reports the
already-running-externally outcome (navigation to the existing server),
leaves the state untouched, and performs no spawn. The `src-tauri` variant
has no duplicate check at all (its setup calls `start_server` directly);
the spec records that check as an optional behavior of the variants. -/
theorem C2_duplicate_detection_precedence (v : String) (st : Nat)
    (env : TauriV.SpawnPhase) (probes : Nat → ProbeOutcome)
    (s : ServerProcess) (port : Nat) (h : status_is_success st = true) :
    TauriV.startup_flow (Except.ok v) (ProbeOutcome.response st) env probes s port
      = (TauriV.FlowOutcome.navigatedExisting, s, []) := by
  simp [TauriV.startup_flow, TauriV.is_server_running, h]

/-- Closed instance of C2: Node.js present, the duplicate probe answers 200,
and the flow reports the existing server without spawning. -/
theorem C2_duplicate_detection_precedence_witness :
    status_is_success 200 = true
    ∧ TauriV.startup_flow (Except.ok ("v20.0.0")) (ProbeOutcome.response 200)
        (TauriV.SpawnPhase.spawned child0) (fun _ => ProbeOutcome.requestError)
        ⟨none⟩ 4567
      = (TauriV.FlowOutcome.navigatedExisting, ⟨none⟩, []) :=
  ⟨by decide,
    C2_duplicate_detection_precedence ("v20.0.0") 200
      (TauriV.SpawnPhase.spawned child0) (fun _ => ProbeOutcome.requestError)
      ⟨none⟩ 4567 (by decide)⟩

/-- C3: lock scope during the readiness poll. The claim holds for the
`tauri` variant — its guard is dropped at the end of the lock block before
`wait_for_server` runs, so a concurrent `stop_server` can acquire the mutex,
terminate the owned child and clear the slot — but it fails for the
`src-tauri` variant, whose guard from line 23 stays alive across the
`wait_for_server(port).await` on line 52, so the readiness poll runs under
the lock (and a `std::sync` guard held across an `await` also makes that
command future non-`Send`). The first conjunct exhibits the violation, the
second and third the behaviour the claim describes, on the `tauri` variant. -/
theorem C3_lock_scope_divergence :
    lock_held_during_poll srcTauri_start_phases = true
    ∧ lock_held_during_poll tauriV_start_phases = false
    ∧ TauriV.stop_server (Except.ok ()) (Except.ok ()) ⟨some child0⟩
        = ((), ⟨none⟩, [Eff.kill child0, Eff.reap child0]) :=
  ⟨rfl, rfl, rfl⟩

/-- C4 counterexample: in the `tauri` variant, `stop_server` has return type
`()`. Calling it with nothing owned returns exactly the same caller-visible
value as calling it with a process owned — the unit value — so it does not
return a `StopError` value distinguishing "nothing to stop": the claim fails
on this variant (the state is still left unchanged and nothing panics). -/
theorem C4_counterexample :
    (TauriV.stop_server (Except.ok ()) (Except.ok ()) ⟨none⟩).1
      = (TauriV.stop_server (Except.ok ()) (Except.ok ()) ⟨some child0⟩).1
    ∧ TauriV.stop_server (Except.ok ()) (Except.ok ()) ⟨none⟩ = ((), ⟨none⟩, []) :=
  ⟨rfl, rfl⟩

/-- C4 as amended: with nothing owned, the `src-tauri` stop command returns
the `StopError` value `Err("Server is not running")` and leaves the state
unchanged with no process effect (and, being a total function, cannot
panic); the `tauri` variant's stop is a silent no-op that also leaves the
state unchanged but surfaces no error — its return type is `()`. Both hold
for every discarded kill/wait outcome. -/
theorem C4_stop_without_start_amended (kr wr kr2 wr2 : Except String Unit) :
    SrcTauri.stop_server kr wr ⟨none⟩
      = (Except.error ("Server is not running"), ⟨none⟩, [])
    ∧ TauriV.stop_server kr2 wr2 ⟨none⟩ = ((), ⟨none⟩, []) :=
  ⟨rfl, rfl⟩

/-- C5: a readiness timeout leaves the spawned process untouched. In both
variants, starting from the empty slot with a successful spawn and probes
that are never healthy, `start_server` returns its timeout error while the
slot still holds the spawned child and the only process effect is the spawn
itself — no kill is issued. Only the explicit `stop_server` (third conjunct)
kills and reaps the child and clears the slot. -/
theorem C5_timeout_leaves_process (probes : Nat → ProbeOutcome) (c : Child)
    (portS portT : Nat) (kr wr : Except String Unit)
    (hfail : ∀ i, probe_healthy (probes i) = false) :
    SrcTauri.start_server (Except.ok c) probes ⟨none⟩ portS
      = (Except.error ("Server failed to start within timeout"),
          ⟨some c⟩, [Eff.spawn c])
    ∧ TauriV.start_server (TauriV.SpawnPhase.spawned c) probes ⟨none⟩ portT
      = (Except.error (TauriV.timeout_msg portT), ⟨some c⟩, [Eff.spawn c])
    ∧ SrcTauri.stop_server kr wr ⟨some c⟩
      = (Except.ok ("Server stopped"), ⟨none⟩, [Eff.kill c, Eff.reap c]) := by
  refine ⟨?_, ?_, rfl⟩
  · have hw := SrcTauri.wait_from_all_fail_src probes hfail 30 0
    simp [SrcTauri.start_server, SrcTauri.wait_for_server, hw]
  · have hw := TauriV.wait_from_all_fail_t probes portT hfail 30 1
    simp [TauriV.start_server, TauriV.wait_for_server, hw]

/-- Closed instance of C5 with a probe oracle that never succeeds. -/
theorem C5_timeout_leaves_process_witness :
    SrcTauri.start_server (Except.ok child0) (fun _ => ProbeOutcome.requestError)
        ⟨none⟩ 4567
      = (Except.error ("Server failed to start within timeout"),
          ⟨some child0⟩, [Eff.spawn child0])
    ∧ TauriV.start_server (TauriV.SpawnPhase.spawned child0)
        (fun _ => ProbeOutcome.requestError) ⟨none⟩ 4567
      = (Except.error (TauriV.timeout_msg 4567), ⟨some child0⟩, [Eff.spawn child0])
    ∧ SrcTauri.stop_server (Except.ok ()) (Except.ok ()) ⟨some child0⟩
      = (Except.ok ("Server stopped"), ⟨none⟩, [Eff.kill child0, Eff.reap child0]) :=
  C5_timeout_leaves_process (fun _ => ProbeOutcome.requestError) child0 4567 4567
    (Except.ok ()) (Except.ok ()) (fun _ => rfl)

/-- C6 counterexample: a concrete `start_server` run of the `tauri` variant
in which the spawn succeeds and every readiness probe fails. The call
returns the timeout error, yet the slot is `some child0` — not `none` — and
the supervisor's own status bookkeeping (`process.isSome`) reports `true`.
So a readiness timeout does not transition the supervisor back to Idle, as
the claim states; the process is deliberately kept. -/
theorem C6_counterexample :
    TauriV.start_server (TauriV.SpawnPhase.spawned child0)
        (fun _ => ProbeOutcome.requestError) ⟨none⟩ 4567
      = (Except.error (TauriV.timeout_msg 4567), ⟨some child0⟩, [Eff.spawn child0])
    ∧ (TauriV.start_server (TauriV.SpawnPhase.spawned child0)
        (fun _ => ProbeOutcome.requestError) ⟨none⟩ 4567).2.1
        ≠ (⟨none⟩ : ServerProcess)
    ∧ ((TauriV.start_server (TauriV.SpawnPhase.spawned child0)
        (fun _ => ProbeOutcome.requestError) ⟨none⟩ 4567).2.1).process.isSome
        = true := by
  refine ⟨?_, ?_, ?_⟩ <;>
    · have hw := TauriV.wait_from_all_fail_t (fun _ => ProbeOutcome.requestError)
        4567 (fun _ => rfl) 30 1
      simp [TauriV.start_server, TauriV.wait_for_server, hw]

/-- C6 as amended: a failed spawn does transition Starting → Idle — in both
variants every pre-spawn failure returns the error with the slot still empty
(status `false`) and no process effect — but a readiness timeout does not:
it surfaces the error while the slot keeps the spawned child, so `status()`
reports `true` until an explicit `stop()`. -/
theorem C6_failure_transitions (e : String) (probes : Nat → ProbeOutcome)
    (c : Child) (portS portT : Nat)
    (hfail : ∀ i, probe_healthy (probes i) = false) :
    SrcTauri.start_server (Except.error e) probes ⟨none⟩ portS
      = (Except.error ("Failed to start server: " ++ e), ⟨none⟩, [])
    ∧ TauriV.start_server (TauriV.SpawnPhase.spawnError e) probes ⟨none⟩ portT
      = (Except.error ("Failed to start Node.js server: " ++ e), ⟨none⟩, [])
    ∧ SrcTauri.get_server_status ⟨none⟩ = Except.ok false
    ∧ TauriV.start_server (TauriV.SpawnPhase.spawned c) probes ⟨none⟩ portT
      = (Except.error (TauriV.timeout_msg portT), ⟨some c⟩, [Eff.spawn c])
    ∧ SrcTauri.get_server_status ⟨some c⟩ = Except.ok true := by
  refine ⟨rfl, rfl, rfl, ?_, rfl⟩
  have hw := TauriV.wait_from_all_fail_t probes portT hfail 30 1
  simp [TauriV.start_server, TauriV.wait_for_server, hw]

/-- Closed instance of C6 as amended, with a probe oracle that never
succeeds. -/
theorem C6_failure_transitions_witness :
    SrcTauri.start_server (Except.error ("no node")) (fun _ => ProbeOutcome.timeout)
        ⟨none⟩ 4567
      = (Except.error ("Failed to start server: " ++ ("no node")), ⟨none⟩, [])
    ∧ TauriV.start_server (TauriV.SpawnPhase.spawnError ("no node"))
        (fun _ => ProbeOutcome.timeout) ⟨none⟩ 4567
      = (Except.error ("Failed to start Node.js server: " ++ ("no node")), ⟨none⟩, [])
    ∧ SrcTauri.get_server_status ⟨none⟩ = Except.ok false
    ∧ TauriV.start_server (TauriV.SpawnPhase.spawned child0)
        (fun _ => ProbeOutcome.timeout) ⟨none⟩ 4567
      = (Except.error (TauriV.timeout_msg 4567), ⟨some child0⟩, [Eff.spawn child0])
    ∧ SrcTauri.get_server_status ⟨some child0⟩ = Except.ok true :=
  C6_failure_transitions ("no node") (fun _ => ProbeOutcome.timeout) child0 4567 4567
    (fun _ => rfl)

/-- C7: bounded readiness wait. For every sequence of probe outcomes, both
variants' `wait_for_server` (30 attempts, total by fuel-structural
recursion) succeed exactly when some attempt within the 30-attempt budget
sees a healthy (2xx) probe — the `src-tauri` loop probes attempts 0..29, the
`tauri` loop attempts 1..30 — and otherwise return precisely their timeout
error: those are the only two possible results, so the wait can neither hang
nor fail any other way. -/
theorem C7_bounded_wait (probesS probesT : Nat → ProbeOutcome) (port : Nat) :
    (SrcTauri.wait_for_server probesS = Except.ok ()
      ↔ ∃ i, i < 30 ∧ probe_healthy (probesS i) = true)
    ∧ (TauriV.wait_for_server probesT port = Except.ok ()
      ↔ ∃ i, i < 30 ∧ probe_healthy (probesT (1 + i)) = true)
    ∧ (SrcTauri.wait_for_server probesS = Except.ok ()
      ∨ SrcTauri.wait_for_server probesS
          = Except.error ("Server failed to start within timeout"))
    ∧ (TauriV.wait_for_server probesT port = Except.ok ()
      ∨ TauriV.wait_for_server probesT port = Except.error (TauriV.timeout_msg port)) := by
  refine ⟨?_, ?_, SrcTauri.wait_from_ok_or_err_src probesS 30 0,
    TauriV.wait_from_ok_or_err_t probesT port 30 1⟩
  · have h := SrcTauri.wait_from_ok_iff_src probesS 30 0
    simpa [SrcTauri.wait_for_server] using h
  · have h := TauriV.wait_from_ok_iff_t probesT port 30 1
    simpa [TauriV.wait_for_server] using h

/-- C8: probe totality. `is_server_running` is a total function into `Bool`
— every probe outcome (completed response of any status, request error,
timeout) is matched, so the caller always receives a boolean — and it
answers `true` exactly on a completed response whose status is in the 2xx
class (200..=299). -/
theorem C8_probe_totality (o : ProbeOutcome) :
    (TauriV.is_server_running o = true
      ↔ ∃ s, o = ProbeOutcome.response s ∧ 200 ≤ s ∧ s ≤ 299)
    ∧ (TauriV.is_server_running o = true ∨ TauriV.is_server_running o = false) := by
  constructor
  · cases o with
    | response s => simp [TauriV.is_server_running, status_is_success]
    | requestError => simp [TauriV.is_server_running]
    | timeout => simp [TauriV.is_server_running]
  · cases h : TauriV.is_server_running o
    · right; rfl
    · left; rfl

/-- C9: config fallback. A missing `HOME`, a missing or unreadable config
file, or a file none of whose lines yields a parseable `PORT=` entry all
resolve to the default port 4567; a file containing `PORT=8080` resolves to
8080, and `PORT=notanumber` falls back to the default. -/
theorem C9_config_fallback (home c bad : String)
    (hbad : ∀ l ∈ TauriV.splitLines bad.data, TauriV.port_of_line l = none) :
    TauriV.read_port_from_config none (some c) = 4567
    ∧ TauriV.read_port_from_config (some home) none = 4567
    ∧ TauriV.read_port_from_config (some home) (some ("PORT=8080")) = 8080
    ∧ TauriV.read_port_from_config (some home) (some ("PORT=notanumber")) = 4567
    ∧ TauriV.read_port_from_config (some home) (some bad) = 4567 := by
  refine ⟨rfl, rfl, rfl, rfl, ?_⟩
  exact TauriV.read_port_lines_all_none (TauriV.splitLines bad.data) hbad

/-- Closed instance of C9, with a config file whose lines mention no
parseable port. -/
theorem C9_config_fallback_witness :
    TauriV.read_port_from_config none (some ("PORT=8080")) = 4567
    ∧ TauriV.read_port_from_config (some ("/home/u")) none = 4567
    ∧ TauriV.read_port_from_config (some ("/home/u")) (some ("PORT=8080")) = 8080
    ∧ TauriV.read_port_from_config (some ("/home/u")) (some ("PORT=notanumber")) = 4567
    ∧ TauriV.read_port_from_config (some ("/home/u")) (some ("THEME=dark\nPORT=x")) = 4567 :=
  C9_config_fallback ("/home/u") ("PORT=8080") ("THEME=dark\nPORT=x") (by decide)

/-- C10: stop clears unconditionally. In both variants, stopping with a
child owned removes the handle (`take()`), then kills and reaps it while
discarding both OS results — the conclusion holds for every kill/wait
outcome, so the `src-tauri` command reports `Ok("Server stopped")` and the
`tauri` variant returns `()` even if the OS failed to terminate the child,
and no termination error is ever surfaced. Afterwards the slot is `none`
and the status command reports `false`. -/
theorem C10_stop_clears_unconditionally (c : Child) (kr wr kr2 wr2 : Except String Unit) :
    SrcTauri.stop_server kr wr ⟨some c⟩
      = (Except.ok ("Server stopped"), ⟨none⟩, [Eff.kill c, Eff.reap c])
    ∧ TauriV.stop_server kr2 wr2 ⟨some c⟩ = ((), ⟨none⟩, [Eff.kill c, Eff.reap c])
    ∧ SrcTauri.get_server_status ⟨none⟩ = Except.ok false :=
  ⟨rfl, rfl, rfl⟩

end AiCodeSwitch
